import Mathlib

set_option maxRecDepth 8000

/-! Shallow embedding of src/git_commit_and_push.py (ansible-gerrit).
External git invocations are modelled by an oracle (GitWorld) supplying the
exit code of each command the workflow runs; the module logic itself is
translated line by line. Paths use the posix separator, as the module does
when run by Ansible. String primitives (split, startswith, endswith) are
implemented over character lists so that every definition evaluates inside
the kernel. -/

/-- Python exceptions and process-exit events relevant to the module.
Ansible exit_json and fail_json terminate the process by raising SystemExit;
they are modelled as exception values carrying their payload. -/
inductive PyExc where
  | runtimeError (msg : String)
  | calledProcessError (msg : String)
  | typeError (msg : String)
  | osError (msg : String)
  | systemExitChanged (changed : Bool)
  | systemExitFail (msg : String)
  deriving DecidableEq

/-- Helper for splitSlash: accumulates the current segment in reverse. -/
def splitSlashAux : List Char → List Char → List String
  | [], acc => [String.mk acc.reverse]
  | c :: rest, acc =>
    if c = '/' then String.mk acc.reverse :: splitSlashAux rest []
    else splitSlashAux rest (c :: acc)

/-- Python str.split on the posix path separator. -/
def splitSlash (s : String) : List String :=
  splitSlashAux s.data []

/-- Python str.startswith for a literal prefix string. -/
def pyStartsWith (s pre : String) : Bool :=
  pre.data.isPrefixOf s.data

/-- Python str.endswith for the path separator. -/
def endsWithSlash (s : String) : Bool :=
  s.data.getLast? = some '/'

/-- Number of conversion specifiers in a Python percent-format string. A
doubled percent sign escapes itself; any other character after a percent
sign is a conversion specifier (the module only uses i and s conversions,
with no flags or widths). -/
def pyFmtSpecs : List Char → Nat
  | [] => 0
  | ['%'] => 0
  | '%' :: c :: rest => if c = '%' then pyFmtSpecs rest else 1 + pyFmtSpecs rest
  | _ :: rest => pyFmtSpecs rest

/-- Substitution of already-rendered arguments for the specifiers. Only
meaningful when the counts match; pyMod checks the counts first. -/
def pyFmtSub : List Char → List String → List Char
  | [], _ => []
  | ['%'], _ => ['%']
  | '%' :: c :: rest, args =>
    if c = '%' then '%' :: pyFmtSub rest args
    else
      match args with
      | a :: args2 => a.data ++ pyFmtSub rest args2
      | [] => pyFmtSub rest []
  | c :: rest, args => c :: pyFmtSub rest args

/-- Python percent-formatting of a format string against an argument list
(a non-tuple right operand counts as a one-element list): formatting raises
TypeError when the argument count does not match the specifier count. -/
def pyMod (fmt : String) (args : List String) : Except PyExc String :=
  let n := pyFmtSpecs fmt.data
  if args.length < n then
    Except.error (PyExc.typeError "not enough arguments for format string")
  else if n < args.length then
    Except.error (PyExc.typeError "not all arguments converted during string formatting")
  else
    Except.ok (String.mk (pyFmtSub fmt.data args))

/-- CPython posixpath.normpath: collapse repeated separators, drop single
dot components, resolve parent-directory components where possible,
preserve the special two-slash root, map the empty path to a single dot. -/
def normpath (path : String) : String :=
  if path = "" then "."
  else
    let initialSlashes : Nat :=
      if pyStartsWith path "//" ∧ ¬ pyStartsWith path "///" then 2
      else if pyStartsWith path "/" then 1
      else 0
    let comps := splitSlash path
    let newComps := comps.foldl
      (fun acc comp =>
        if comp = "" ∨ comp = "." then acc
        else if comp ≠ ".." ∨ (initialSlashes = 0 ∧ acc = []) ∨
            (acc ≠ [] ∧ acc.getLast? = some "..") then acc ++ [comp]
        else if acc ≠ [] then acc.dropLast
        else acc)
      []
    let joined := String.intercalate "/" newComps
    let withRoot := String.join (List.replicate initialSlashes "/") ++ joined
    if withRoot = "" then "." else withRoot

/-- Number of components of the normalized path, as computed at line 163 of
git_commit_and_push.py by os.path.normpath(path).split(os.path.sep). -/
def componentCount (path : String) : Nat :=
  (splitSlash (normpath path)).length

/-- strip_path_components, git_commit_and_push.py lines 159-172. The error
branch formats a message holding two conversion specifiers but applies the
percent operator to the single argument len(components), so Python raises
TypeError there before any RuntimeError is constructed. -/
def strip_path_components (path : String) (nComponentsToStrip : Nat) : Except PyExc String :=
  if nComponentsToStrip = 0 then Except.ok path
  else
    let components := splitSlash (normpath path)
    if components.length ≤ nComponentsToStrip then
      match pyMod "Cannot strip more than %i component(s) from path %s"
          [toString components.length] with
      | Except.error e => Except.error e
      | Except.ok msg => Except.error (PyExc.runtimeError msg)
    else
      Except.ok (String.intercalate "/" (components.drop nComponentsToStrip))

/-- posixpath.join of two segments. -/
def posixJoin2 (a b : String) : String :=
  if pyStartsWith b "/" then b
  else if a = "" ∨ endsWithSlash a then a ++ b
  else a ++ "/" ++ b

/-- posixpath.join of three segments, folding left like os.path.join. -/
def posixJoin3 (a b c : String) : String :=
  posixJoin2 (posixJoin2 a b) c

deriving instance DecidableEq for Except

/-- Module parameters (argument_spec, lines 179-191). Optional string
parameters default to the empty string, standing for an unset value, which
is falsy in Python exactly like the empty string. strip_path_components has
type int with default 0; the claims only quantify over non-negative values,
so it is carried as a natural number. -/
structure ModuleParams where
  author_name : String
  author_email : String
  commit_message : String
  committer_name : String
  committer_email : String
  create_ref : Bool
  files : List String
  prepend_path : String
  ref : String
  repo : String
  strip_path_components : Nat
  deriving DecidableEq

/-- Oracle for the external world: the temporary path handed out by
tempfile.mkdtemp, the exit code each git command would return, the stderr
of a failing clone, and the set of source paths whose copy or makedirs step
would raise an OSError/IOError. -/
structure GitWorld where
  tmp_path : String
  clone_rc : Nat
  clone_stderr : String
  ls_remote_rc : Nat
  fetch_rc : Nat
  checkout_rc : Nat
  branch_rc : Nat
  add_rc : Nat
  diff_index_rc : Nat
  commit_rc : Nat
  push_rc : Nat
  copy_os_error : List String
  deriving DecidableEq

/-- Trace of git commands issued through module.run_command. -/
inductive GitAction where
  | cloneCmd
  | lsRemote (ref : String)
  | fetchCmd (refspec : String)
  | checkoutCmd (ref : String)
  | branchCreate (name : String)
  | addCmd (paths : List String)
  | diffIndex
  | commitCmd (msg : String)
  | pushCmd (refspec : String)
  deriving DecidableEq

/-- run_git (lines 53-62): module.run_command with check_rc=True calls
module.fail_json on a non-zero exit code, which raises SystemExit. -/
def run_git_checked (rc : Nat) (cmd : String) : Except PyExc Unit :=
  if rc = 0 then Except.ok ()
  else Except.error (PyExc.systemExitFail ("git " ++ cmd ++ " failed"))

/-- Constructing subprocess.CalledProcessError with the single positional
argument msg raises TypeError: its initializer requires at least the two
arguments returncode and cmd. The msg argument is never attached. -/
def calledProcessErrorOneArg (_msg : String) : PyExc :=
  PyExc.typeError "CalledProcessError initializer takes at least 3 arguments (2 given)"

/-- ref_exists_in_origin (lines 78-89): branch on the ls-remote exit code;
0 is found, 2 is not found, anything else reaches a raise statement whose
CalledProcessError construction itself raises TypeError. -/
def ref_exists_in_origin (ls_remote_rc : Nat) : Except PyExc Bool :=
  if ls_remote_rc = 0 then Except.ok true
  else if ls_remote_rc = 2 then Except.ok false
  else Except.error (calledProcessErrorOneArg "git ls-remote command failed.")

/-- checkout_ref (lines 91-105), returning the outcome together with the
trace of git commands run. The RuntimeError message renders the percent
substitution of the ref name directly (quote characters elided). -/
def checkout_ref (w : GitWorld) (ref local_ref : String) (create : Bool) :
    Except PyExc Unit × List GitAction :=
  match ref_exists_in_origin w.ls_remote_rc with
  | Except.error e => (Except.error e, [GitAction.lsRemote ref])
  | Except.ok true =>
    match run_git_checked w.fetch_rc "fetch" with
    | Except.error e =>
      (Except.error e, [GitAction.lsRemote ref, GitAction.fetchCmd (ref ++ ":" ++ local_ref)])
    | Except.ok _ =>
      match run_git_checked w.checkout_rc "checkout" with
      | Except.error e =>
        (Except.error e, [GitAction.lsRemote ref,
          GitAction.fetchCmd (ref ++ ":" ++ local_ref), GitAction.checkoutCmd local_ref])
      | Except.ok _ =>
        (Except.ok (), [GitAction.lsRemote ref,
          GitAction.fetchCmd (ref ++ ":" ++ local_ref), GitAction.checkoutCmd local_ref])
  | Except.ok false =>
    if create then
      match run_git_checked w.branch_rc "checkout -b" with
      | Except.error e => (Except.error e, [GitAction.lsRemote ref, GitAction.branchCreate local_ref])
      | Except.ok _ => (Except.ok (), [GitAction.lsRemote ref, GitAction.branchCreate local_ref])
    else
      (Except.error (PyExc.runtimeError ("Remote ref " ++ ref ++ " does not exist")),
        [GitAction.lsRemote ref])

/-- staging_area_has_changes (lines 110-112): returns the raw integer exit
code of git diff-index --quiet HEAD, not a validated boolean. -/
def staging_area_has_changes (diff_index_rc : Nat) : Nat :=
  diff_index_rc

/-- os.environ modelled as an association list; assignment replaces an
existing binding or appends a new one. -/
def envSet (e : List (String × String)) (k v : String) : List (String × String) :=
  if e.any (fun kv => kv.1 = k) then
    e.map (fun kv => if kv.1 = k then (k, v) else kv)
  else e ++ [(k, v)]

/-- GitDirectory.commit (lines 114-129): copy os.environ, set the identity
variables that are truthy, run git commit, then restore os.environ. There
is no try/finally, so when the commit command fails (fail_json raising
SystemExit from run_command with check_rc=True) the restore line is never
reached and the mutated environment is left in place. -/
def GitDirectory.commit (env0 : List (String × String)) (p : ModuleParams)
    (commit_rc : Nat) : Except PyExc Unit × List (String × String) :=
  let old_env := env0
  let e1 := if p.author_email ≠ "" then envSet env0 "GIT_AUTHOR_EMAIL" p.author_email else env0
  let e2 := if p.author_name ≠ "" then envSet e1 "GIT_AUTHOR_NAME" p.author_name else e1
  let e3 := if p.committer_email ≠ "" then envSet e2 "GIT_COMMITTER_EMAIL" p.committer_email else e2
  let e4 := if p.committer_name ≠ "" then envSet e3 "GIT_COMMITTER_NAME" p.committer_name else e3
  match run_git_checked commit_rc "commit" with
  | Except.ok _ => (Except.ok (), old_env)
  | Except.error ex => (Except.error ex, e4)

/-- One iteration of the staging loop (main, lines 204-212): strip the
path, join it under repo.path and prepend_path, create the destination
directory and copy the file (an OSError from either filesystem step is
modelled by membership in copy_os_error), and return the target path that
is appended to files_in_repo. -/
def stage_one (w : GitWorld) (p : ModuleParams) (source_path : String) :
    Except PyExc String :=
  match strip_path_components source_path p.strip_path_components with
  | Except.error e => Except.error e
  | Except.ok stripped =>
    let target := posixJoin3 w.tmp_path p.prepend_path stripped
    if source_path ∈ w.copy_os_error then Except.error (PyExc.osError source_path)
    else Except.ok target

/-- The staging loop over the whole input file list, in order; the first
failure aborts the remaining iterations. -/
def stage_files (w : GitWorld) (p : ModuleParams) : List String → Except PyExc (List String)
  | [] => Except.ok []
  | f :: rest =>
    match stage_one w p f with
    | Except.error e => Except.error e
    | Except.ok t =>
      match stage_files w p rest with
      | Except.error e => Except.error e
      | Except.ok ts => Except.ok (t :: ts)

/-- Result of the body of main up to the point where an exception (always,
since both terminal branches call exit_json) leaves the with block. -/
structure InnerResult where
  exc : PyExc
  actions : List GitAction
  staged : List String
  final_env : List (String × String)
  deriving DecidableEq

/-- The body of the with block in main (lines 199-229): checkout_ref, the
staging loop, add_files, the diff-index decision, and either the
commit/push/exit_json(changed=True) sequence or exit_json(changed=False).
Python int truthiness makes the decision "exit code not equal to zero". -/
def with_body (p : ModuleParams) (env0 : List (String × String)) (w : GitWorld) : InnerResult :=
  match checkout_ref w p.ref "local" p.create_ref with
  | (Except.error e, acts) => ⟨e, acts, [], env0⟩
  | (Except.ok _, acts) =>
    match stage_files w p p.files with
    | Except.error e => ⟨e, acts, [], env0⟩
    | Except.ok files_in_repo =>
      match run_git_checked w.add_rc "add" with
      | Except.error e => ⟨e, acts ++ [GitAction.addCmd files_in_repo], files_in_repo, env0⟩
      | Except.ok _ =>
        if staging_area_has_changes w.diff_index_rc ≠ 0 then
          match GitDirectory.commit env0 p w.commit_rc with
          | (Except.error e, env1) =>
            ⟨e, acts ++ [GitAction.addCmd files_in_repo, GitAction.diffIndex,
              GitAction.commitCmd p.commit_message], files_in_repo, env1⟩
          | (Except.ok _, env1) =>
            match run_git_checked w.push_rc "push" with
            | Except.error e =>
              ⟨e, acts ++ [GitAction.addCmd files_in_repo, GitAction.diffIndex,
                GitAction.commitCmd p.commit_message,
                GitAction.pushCmd ("local:" ++ p.ref)], files_in_repo, env1⟩
            | Except.ok _ =>
              ⟨PyExc.systemExitChanged true,
                acts ++ [GitAction.addCmd files_in_repo, GitAction.diffIndex,
                  GitAction.commitCmd p.commit_message,
                  GitAction.pushCmd ("local:" ++ p.ref)], files_in_repo, env1⟩
        else
          ⟨PyExc.systemExitChanged false,
            acts ++ [GitAction.addCmd files_in_repo, GitAction.diffIndex], files_in_repo, env0⟩

/-- clone_repo try block (lines 145-153): a failing git clone raises
RuntimeError with the captured stderr, otherwise the with body runs. -/
def main_inner (p : ModuleParams) (env0 : List (String × String)) (w : GitWorld) : InnerResult :=
  if w.clone_rc ≠ 0 then
    ⟨PyExc.runtimeError ("Cloning " ++ p.repo ++ " failed: " ++ w.clone_stderr),
      [GitAction.cloneCmd], [], env0⟩
  else
    let r := with_body p env0 w
    { r with actions := GitAction.cloneCmd :: r.actions }

/-- What the module process ends up doing. -/
inductive Outcome where
  | moduleExit (changed : Bool)
  | moduleFail (msg : String)
  | uncaught (e : PyExc)
  deriving DecidableEq

/-- The except clause of main (lines 231-233) catches only
subprocess.CalledProcessError and RuntimeError, turning them into
fail_json; SystemExit from exit_json/fail_json passes through as the
process exit; every other exception escapes the module uncaught. -/
def dispatch_exc : PyExc → Outcome
  | PyExc.systemExitChanged b => Outcome.moduleExit b
  | PyExc.systemExitFail m => Outcome.moduleFail m
  | PyExc.runtimeError m => Outcome.moduleFail m
  | PyExc.calledProcessError m => Outcome.moduleFail m
  | e => Outcome.uncaught e

/-- The finally block of clone_repo (lines 154-156): if os.path.exists of
the path, shutil.rmtree of the path; afterwards the path is not on disk. -/
def rmtree_if_on_disk (on_disk : Bool) : Bool :=
  if on_disk then false else on_disk

/-- Overall result of one module invocation. -/
structure MainResult where
  outcome : Outcome
  actions : List GitAction
  staged : List String
  dir_created : Bool
  dir_on_disk : Bool
  final_env : List (String × String)
  deriving DecidableEq

/-- main (lines 175-233): clone_repo is entered with path=None, so
tempfile.mkdtemp always creates the working directory before the try
block; the body runs; the finally block removes the directory on every
path out of the with statement, exceptions included; the except clause
then interprets the in-flight exception. -/
def module_main (p : ModuleParams) (env0 : List (String × String)) (w : GitWorld) : MainResult :=
  let r := main_inner p env0 w
  { outcome := dispatch_exc r.exc
    actions := r.actions
    staged := r.staged
    dir_created := true
    dir_on_disk := rmtree_if_on_disk true
    final_env := r.final_env }

/-- Concrete invocation for C6: empty file list, create_ref true, ref
absent remotely (ls-remote exit 2). -/
def c6Params : ModuleParams :=
  { author_name := "", author_email := "", commit_message := "msg",
    committer_name := "", committer_email := "", create_ref := true,
    files := [], prepend_path := "", ref := "refs/meta/config",
    repo := "ssh://gerrit/r", strip_path_components := 0 }

/-- World for the C6 counterexample: the remote repository is empty, so
after git clone and git checkout -b the branch is unborn and HEAD cannot
be resolved; git diff-index --quiet HEAD then exits 128, and the commit
the workflow subsequently attempts exits 1 (nothing to commit), making
run_git fail_json. -/
def c6World : GitWorld :=
  { tmp_path := "/tmp/work", clone_rc := 0, clone_stderr := "",
    ls_remote_rc := 2, fetch_rc := 0, checkout_rc := 0, branch_rc := 0,
    add_rc := 0, diff_index_rc := 128, commit_rc := 1, push_rc := 0,
    copy_os_error := [] }

/-- Concrete invocation for C7: one input file a/b/config.yaml, one
component stripped, prepend_path etc. -/
def c7Params : ModuleParams :=
  { author_name := "", author_email := "", commit_message := "msg",
    committer_name := "", committer_email := "", create_ref := false,
    files := ["a/b/config.yaml"], prepend_path := "etc", ref := "master",
    repo := "ssh://gerrit/r", strip_path_components := 1 }

/-- World for the C7 counterexample: every command succeeds. -/
def c7World : GitWorld :=
  { tmp_path := "/tmp/work", clone_rc := 0, clone_stderr := "",
    ls_remote_rc := 0, fetch_rc := 0, checkout_rc := 0, branch_rc := 0,
    add_rc := 0, diff_index_rc := 1, commit_rc := 0, push_rc := 0,
    copy_os_error := [] }

/-- Concrete parameters for C8: only author_email is set among the
identity fields. -/
def c8Params : ModuleParams :=
  { author_name := "", author_email := "author@example.com", commit_message := "msg",
    committer_name := "", committer_email := "", create_ref := false,
    files := [], prepend_path := "", ref := "master", repo := "ssh://gerrit/r",
    strip_path_components := 0 }

/-- Concrete parameters for the C9 witness. -/
def c9Params : ModuleParams :=
  { author_name := "", author_email := "", commit_message := "msg",
    committer_name := "", committer_email := "", create_ref := true,
    files := [], prepend_path := "", ref := "refs/meta/config",
    repo := "ssh://gerrit/r", strip_path_components := 0 }

/-- World for the C9 witness: the diff-index probe fails with exit code
128, as when HEAD cannot be resolved on a newly created empty branch. -/
def c9World : GitWorld :=
  { tmp_path := "/tmp/work", clone_rc := 0, clone_stderr := "",
    ls_remote_rc := 0, fetch_rc := 0, checkout_rc := 0, branch_rc := 0,
    add_rc := 0, diff_index_rc := 128, commit_rc := 0, push_rc := 0,
    copy_os_error := [] }

/-- Concrete parameters for the C10 witness: one source file whose copy
step raises OSError. -/
def c10Params : ModuleParams :=
  { author_name := "", author_email := "", commit_message := "msg",
    committer_name := "", committer_email := "", create_ref := false,
    files := ["missing.txt"], prepend_path := "", ref := "master",
    repo := "ssh://gerrit/r", strip_path_components := 0 }

/-- World for the C10 witness. -/
def c10World : GitWorld :=
  { tmp_path := "/tmp/work", clone_rc := 0, clone_stderr := "",
    ls_remote_rc := 0, fetch_rc := 0, checkout_rc := 0, branch_rc := 0,
    add_rc := 0, diff_index_rc := 0, commit_rc := 0, push_rc := 0,
    copy_os_error := ["missing.txt"] }


/-- C1: for every parameter set, initial environment and external world,
the temporary working directory created for the clone has been removed
from disk when the workflow returns, whatever the outcome: success with a
push, success with no change, or an error raised by any step after the
directory was created. -/
theorem C1_tmpdir_removed (p : ModuleParams) (env0 : List (String × String)) (w : GitWorld) :
    (module_main p env0 w).dir_created = true ∧ (module_main p env0 w).dir_on_disk = false :=
  ⟨rfl, rfl⟩

/-- C2 counterexample: at path a//b and n = 0 the code returns the path
unchanged, which differs from dropping zero components of the normalized
path and rejoining them, so the claim as stated is false at n = 0. -/
theorem C2_counterexample :
    0 < componentCount "a//b" ∧
    strip_path_components "a//b" 0 = Except.ok "a//b" ∧
    "a//b" ≠ String.intercalate "/" (List.drop 0 (splitSlash (normpath "a//b"))) :=
  ⟨by decide, by decide, by decide⟩

/-- C2 (amended): stripComponents(path, 0) returns the path unchanged,
without normalization; and for every n with 1 <= n < componentCount(path)
it returns the normalized path with its first n components dropped and the
rest rejoined with the separator. -/
theorem C2_strip_components (path : String) (n : Nat) :
    strip_path_components path 0 = Except.ok path ∧
    (1 ≤ n → n < componentCount path →
      strip_path_components path n =
        Except.ok (String.intercalate "/" ((splitSlash (normpath path)).drop n))) := by
  constructor
  · simp [strip_path_components]
  · intro h1 h2
    unfold strip_path_components
    have hn : ¬ n = 0 := by omega
    unfold componentCount at h2
    have hlen : ¬ ((splitSlash (normpath path)).length ≤ n) := by omega
    simp [hn, hlen]

/-- Witness for C2_strip_components at path a/b/c, n = 1. -/
theorem C2_strip_components_witness :
    strip_path_components "a/b/c" 1 = Except.ok "b/c" := by
  have h := (C2_strip_components "a/b/c" 1).2 (by decide) (by decide)
  rw [h]
  decide

/-- Helper: applying the percent operator of the strip error message, which
holds two conversion specifiers, to a single argument raises TypeError. -/
theorem pyMod_strip_message (a : String) :
    pyMod "Cannot strip more than %i component(s) from path %s" [a] =
      Except.error (PyExc.typeError "not enough arguments for format string") := by
  have h2 : pyFmtSpecs "Cannot strip more than %i component(s) from path %s".data = 2 := by
    decide
  unfold pyMod
  simp [h2]

/-- C3 (code bug evaluation): for n > 0 with n >= componentCount(path) the
function raises TypeError from the malformed percent-format of the error
message, not the intended RuntimeError, and main's except clause does not
catch TypeError, so no fatal failure report is produced. -/
theorem C3_strip_too_many (path : String) (n : Nat) (h0 : 0 < n)
    (h : componentCount path ≤ n) :
    strip_path_components path n =
      Except.error (PyExc.typeError "not enough arguments for format string") ∧
    dispatch_exc (PyExc.typeError "not enough arguments for format string") =
      Outcome.uncaught (PyExc.typeError "not enough arguments for format string") := by
  constructor
  · unfold strip_path_components
    have hn : ¬ n = 0 := by omega
    unfold componentCount at h
    simp [hn, h, pyMod_strip_message]
  · rfl

/-- Witness for C3_strip_too_many at path a, n = 1. -/
theorem C3_strip_too_many_witness :
    strip_path_components "a" 1 =
      Except.error (PyExc.typeError "not enough arguments for format string") :=
  (C3_strip_too_many "a" 1 (by decide) (by decide)).1

/-- C4 (code bug evaluation): the ls-remote probe maps exit code 0 to
found and exit code 2 to not found; every other exit code reaches the
raise statement, but the one-argument CalledProcessError construction
there itself raises TypeError, and main's except clause does not catch
TypeError, so the failure is never reported through fail_json. -/
theorem C4_ref_check (rc : Nat) (h0 : rc ≠ 0) (h2 : rc ≠ 2) :
    ref_exists_in_origin 0 = Except.ok true ∧
    ref_exists_in_origin 2 = Except.ok false ∧
    ref_exists_in_origin rc = Except.error
      (PyExc.typeError "CalledProcessError initializer takes at least 3 arguments (2 given)") ∧
    dispatch_exc
      (PyExc.typeError "CalledProcessError initializer takes at least 3 arguments (2 given)") =
    Outcome.uncaught
      (PyExc.typeError "CalledProcessError initializer takes at least 3 arguments (2 given)") := by
  refine ⟨rfl, rfl, ?_, rfl⟩
  unfold ref_exists_in_origin calledProcessErrorOneArg
  simp [h0, h2]

/-- Witness for C4_ref_check at exit code 128. -/
theorem C4_ref_check_witness :
    ref_exists_in_origin 128 = Except.error
      (PyExc.typeError "CalledProcessError initializer takes at least 3 arguments (2 given)") :=
  (C4_ref_check 128 (by decide) (by decide)).2.2.1

/-- C5: when the ref exists remotely (ls-remote exit 0) checkout_ref never
runs the branch-creation command, for either value of create, and when
fetch and checkout succeed it runs exactly ls-remote, then a fetch of the
ref into the local name, then a checkout of the local name; when the ref
does not exist remotely (exit 2) and create is false it fails with the
RuntimeError naming the missing remote ref. -/
theorem C5_checkout_ref (w : GitWorld) (ref local_ref : String) (create : Bool) :
    (w.ls_remote_rc = 0 →
      ∀ b, GitAction.branchCreate b ∉ (checkout_ref w ref local_ref create).2) ∧
    (w.ls_remote_rc = 0 → w.fetch_rc = 0 → w.checkout_rc = 0 →
      checkout_ref w ref local_ref create =
        (Except.ok (), [GitAction.lsRemote ref,
          GitAction.fetchCmd (ref ++ ":" ++ local_ref),
          GitAction.checkoutCmd local_ref])) ∧
    (w.ls_remote_rc = 2 → create = false →
      checkout_ref w ref local_ref create =
        (Except.error (PyExc.runtimeError ("Remote ref " ++ ref ++ " does not exist")),
          [GitAction.lsRemote ref])) := by
  refine ⟨?_, ?_, ?_⟩
  · intro h b
    unfold checkout_ref ref_exists_in_origin run_git_checked
    by_cases hf : w.fetch_rc = 0 <;> by_cases hc : w.checkout_rc = 0 <;>
      simp [h, hf, hc]
  · intro h hf hc
    unfold checkout_ref ref_exists_in_origin run_git_checked
    simp [h, hf, hc]
  · intro h hcr
    unfold checkout_ref ref_exists_in_origin run_git_checked
    simp [h, hcr]

/-- Witness for C5_checkout_ref: a world where the ref exists and fetch
and checkout succeed, checked on both create values, plus the not-found
case with create false. -/
theorem C5_checkout_ref_witness :
    checkout_ref c7World "refs/meta/config" "local" true =
      (Except.ok (), [GitAction.lsRemote "refs/meta/config",
        GitAction.fetchCmd "refs/meta/config:local",
        GitAction.checkoutCmd "local"]) ∧
    checkout_ref c7World "refs/meta/config" "local" false =
      (Except.ok (), [GitAction.lsRemote "refs/meta/config",
        GitAction.fetchCmd "refs/meta/config:local",
        GitAction.checkoutCmd "local"]) ∧
    checkout_ref c6World "refs/meta/config" "local" false =
      (Except.error (PyExc.runtimeError "Remote ref refs/meta/config does not exist"),
        [GitAction.lsRemote "refs/meta/config"]) := by
  refine ⟨?_, ?_, ?_⟩
  · have h := (C5_checkout_ref c7World "refs/meta/config" "local" true).2.1 rfl rfl rfl
    rw [h]
    decide
  · have h := (C5_checkout_ref c7World "refs/meta/config" "local" false).2.1 rfl rfl rfl
    rw [h]
    decide
  · have h := (C5_checkout_ref c6World "refs/meta/config" "local" false).2.2 rfl rfl
    rw [h]
    decide

/-- Helper: checkout_ref only ever runs ls-remote, fetch, checkout and
branch-creation commands; its trace never holds a commit or a push, on any
route and for any exit codes. -/
theorem checkout_ref_no_commit (w : GitWorld) (ref local_ref : String) (create : Bool) :
    (∀ m, GitAction.commitCmd m ∉ (checkout_ref w ref local_ref create).2) ∧
    (∀ r, GitAction.pushCmd r ∉ (checkout_ref w ref local_ref create).2) := by
  unfold checkout_ref ref_exists_in_origin run_git_checked
  by_cases h0 : w.ls_remote_rc = 0 <;> by_cases h2 : w.ls_remote_rc = 2 <;>
    by_cases hf : w.fetch_rc = 0 <;> by_cases hc : w.checkout_rc = 0 <;>
      by_cases hb : w.branch_rc = 0 <;> by_cases hcr : create <;>
        simp [h0, h2, hf, hc, hb, hcr]

/-- C6 counterexample: with an empty input file list and a ref newly
created on an empty remote (ls-remote exit 2, create_ref true, unborn
HEAD), the diff-index probe exits 128, the workflow treats that as
pending changes and attempts a commit, the commit of the empty index
fails with exit 1 (nothing to commit), and the invocation terminates as
a fatal fail_json — not successfully with changed = false — so the claim
fails for this ref state. -/
theorem C6_counterexample :
    c6Params.files = [] ∧
    (module_main c6Params [] c6World).outcome = Outcome.moduleFail "git commit failed" ∧
    (module_main c6Params [] c6World).outcome ≠ Outcome.moduleExit false ∧
    GitAction.commitCmd "msg" ∈ (module_main c6Params [] c6World).actions ∧
    GitAction.pushCmd "local:refs/meta/config" ∉ (module_main c6Params [] c6World).actions := by
  refine ⟨by decide, by decide, by decide, by decide, by decide⟩

/-- C6 (amended): when the input file list is empty and the target ref was
checked out successfully — whether it existed remotely and was fetched, or
was newly created with checkout -b — and the diff-index probe against HEAD
exits 0 (as it does on every route with a resolvable HEAD), the workflow
terminates successfully with changed = false and runs no commit and no
push; only in the created-ref state on an empty remote is HEAD
unresolvable, and there the probe exits 128, a commit is attempted, fails
with nothing to commit, and the workflow reports a fatal failure instead. -/
theorem C6_empty_files (p : ModuleParams) (env0 : List (String × String)) (w : GitWorld)
    (acts : List GitAction)
    (hf : p.files = []) (hc : w.clone_rc = 0)
    (hk : checkout_ref w p.ref "local" p.create_ref = (Except.ok (), acts))
    (ha : w.add_rc = 0) (hd : w.diff_index_rc = 0) :
    (module_main p env0 w).outcome = Outcome.moduleExit false ∧
    (∀ m, GitAction.commitCmd m ∉ (module_main p env0 w).actions) ∧
    (∀ r, GitAction.pushCmd r ∉ (module_main p env0 w).actions) := by
  have hno1 : ∀ m, GitAction.commitCmd m ∉ acts := by
    have h := (checkout_ref_no_commit w p.ref "local" p.create_ref).1
    rw [hk] at h
    exact h
  have hno2 : ∀ r, GitAction.pushCmd r ∉ acts := by
    have h := (checkout_ref_no_commit w p.ref "local" p.create_ref).2
    rw [hk] at h
    exact h
  unfold module_main main_inner with_body
  rw [hk]
  simp [hf, hc, ha, hd, stage_files, dispatch_exc, staging_area_has_changes,
    run_git_checked, hno1, hno2]

/-- Witness for C6_empty_files, exercised on both checkout routes: the
fetch-then-checkout route (ls-remote exit 0) and the branch-creation
route (ls-remote exit 2 with create_ref true, non-empty remote, so the
diff-index probe exits 0). -/
theorem C6_empty_files_witness :
    (module_main c9Params [] { c9World with diff_index_rc := 0 }).outcome =
      Outcome.moduleExit false ∧
    GitAction.commitCmd "msg" ∉
      (module_main c9Params [] { c9World with diff_index_rc := 0 }).actions ∧
    (module_main c6Params [] { c6World with diff_index_rc := 0 }).outcome =
      Outcome.moduleExit false ∧
    GitAction.pushCmd "local:refs/meta/config" ∉
      (module_main c6Params [] { c6World with diff_index_rc := 0 }).actions := by
  have h1 := C6_empty_files c9Params [] { c9World with diff_index_rc := 0 }
    [GitAction.lsRemote "refs/meta/config", GitAction.fetchCmd "refs/meta/config:local",
      GitAction.checkoutCmd "local"]
    rfl rfl (by decide) rfl rfl
  have h2 := C6_empty_files c6Params [] { c6World with diff_index_rc := 0 }
    [GitAction.lsRemote "refs/meta/config", GitAction.branchCreate "local"]
    rfl rfl (by decide) rfl rfl
  exact ⟨h1.1, h1.2.1 "msg", h2.1, h2.2.2 "local:refs/meta/config"⟩

/-- C7 counterexample: for files = [a/b/config.yaml], one stripped
component, and prepend_path etc, the staged destination under the clone
root /tmp/work is /tmp/work/etc/b/config.yaml — the path relative to the
clone root is etc/b/config.yaml, not the claimed etc/config.yaml. -/
theorem C7_counterexample :
    (module_main c7Params [] c7World).staged = ["/tmp/work/etc/b/config.yaml"] ∧
    "/tmp/work/etc/b/config.yaml" ≠ posixJoin2 "/tmp/work" "etc/config.yaml" := by
  refine ⟨by decide, by decide⟩

/-- C7 (amended): for files = [a/b/config.yaml], stripPathComponents = 1
and prependPath = etc, the staged destination is
join(cloneRoot, etc, b/config.yaml), that is etc/b/config.yaml relative to
the clone root, whatever temporary path the clone received. -/
theorem C7_staged_path (env0 : List (String × String)) (w : GitWorld)
    (hc : w.clone_rc = 0) (hl : w.ls_remote_rc = 0) (hfe : w.fetch_rc = 0)
    (hco : w.checkout_rc = 0) (hcp : w.copy_os_error = []) :
    (module_main c7Params env0 w).staged =
      [posixJoin3 w.tmp_path "etc" "b/config.yaml"] := by
  have hs : strip_path_components "a/b/config.yaml" 1 = Except.ok "b/config.yaml" := by
    decide
  unfold module_main main_inner with_body checkout_ref ref_exists_in_origin
    run_git_checked staging_area_has_changes
  by_cases ha : w.add_rc = 0 <;> by_cases hd : w.diff_index_rc = 0 <;>
    by_cases hcm : w.commit_rc = 0 <;> by_cases hp : w.push_rc = 0 <;>
      simp [hc, hl, hfe, hco, hcp, ha, hd, hcm, hp, stage_files, stage_one, hs,
        c7Params, GitDirectory.commit, run_git_checked]

/-- Witness for C7_staged_path at the concrete world c7World. -/
theorem C7_staged_path_witness :
    (module_main c7Params [] c7World).staged = ["/tmp/work/etc/b/config.yaml"] := by
  have h := C7_staged_path [] c7World rfl rfl rfl rfl rfl
  rw [h]
  decide

/-- C8 counterexample: calling commit with author_email set while the git
commit command fails (run_command with check_rc=True raising SystemExit
through fail_json) leaves GIT_AUTHOR_EMAIL in the process environment,
because the restore assignment after run_git is never reached; the
environment after the call differs from the environment before it. -/
theorem C8_counterexample :
    (GitDirectory.commit [] c8Params 1).2 = [("GIT_AUTHOR_EMAIL", "author@example.com")] ∧
    (GitDirectory.commit [] c8Params 1).2 ≠ ([] : List (String × String)) ∧
    (GitDirectory.commit [] c8Params 1).1 =
      Except.error (PyExc.systemExitFail "git commit failed") := by
  refine ⟨by decide, by decide, by decide⟩

/-- C8 (amended): the identity environment overrides are scoped to the
call only when commit terminates normally: after a successful commit the
process environment equals its value from before the call; when the
underlying commit command fails, the restore line is skipped and the
overrides persist. -/
theorem C8_commit_env (env0 : List (String × String)) (p : ModuleParams) (rc : Nat)
    (h : rc = 0) :
    (GitDirectory.commit env0 p rc).1 = Except.ok () ∧
    (GitDirectory.commit env0 p rc).2 = env0 := by
  subst h
  unfold GitDirectory.commit run_git_checked
  simp

/-- Witness for C8_commit_env at the concrete c8Params call with a
succeeding commit command. -/
theorem C8_commit_env_witness :
    (GitDirectory.commit [("PATH", "/usr/bin")] c8Params 0).2 = [("PATH", "/usr/bin")] :=
  (C8_commit_env [("PATH", "/usr/bin")] c8Params 0 rfl).2

/-- C9: staging_area_has_changes returns the raw exit code of
git diff-index --quiet HEAD, and whenever the workflow reaches the probe
(clone, checkout of an existing ref, staging and add all succeeded) any
nonzero exit code — 128 from a failed diff command included — sends the
orchestrator into the commit branch: a commit is attempted and the nonzero
probe value itself never becomes a reported error. -/
theorem C9_raw_exit_code (p : ModuleParams) (env0 : List (String × String)) (w : GitWorld)
    (fs : List String)
    (hc : w.clone_rc = 0) (hl : w.ls_remote_rc = 0) (hfe : w.fetch_rc = 0)
    (hco : w.checkout_rc = 0) (hs : stage_files w p p.files = Except.ok fs)
    (ha : w.add_rc = 0) (hd : w.diff_index_rc ≠ 0) :
    staging_area_has_changes w.diff_index_rc = w.diff_index_rc ∧
    GitAction.commitCmd p.commit_message ∈ (module_main p env0 w).actions := by
  refine ⟨rfl, ?_⟩
  unfold module_main main_inner with_body checkout_ref ref_exists_in_origin
    run_git_checked staging_area_has_changes
  by_cases hcm : w.commit_rc = 0 <;> by_cases hp : w.push_rc = 0 <;>
    simp [hc, hl, hfe, hco, hs, ha, hd, hcm, hp, GitDirectory.commit, run_git_checked]

/-- Witness for C9_raw_exit_code: empty file list, diff-index exit 128. -/
theorem C9_raw_exit_code_witness :
    GitAction.commitCmd "msg" ∈ (module_main c9Params [] c9World).actions := by
  have h := C9_raw_exit_code c9Params [] c9World [] rfl rfl rfl rfl (by decide) rfl
    (by decide)
  exact h.2

/-- C10: an OSError raised while staging a file (unreadable source or
uncreatable destination directory), reached after a successful clone and
checkout, is not among the exception types caught by the except clause of
main, so it leaves the module uncaught instead of becoming a fail_json
report — and the temporary directory is nevertheless removed, because the
clone context manager runs its finally block. -/
theorem C10_os_error_uncaught (p : ModuleParams) (env0 : List (String × String))
    (w : GitWorld) (m : String) (acts : List GitAction)
    (hc : w.clone_rc = 0)
    (hk : checkout_ref w p.ref "local" p.create_ref = (Except.ok (), acts))
    (hs : stage_files w p p.files = Except.error (PyExc.osError m)) :
    (module_main p env0 w).outcome = Outcome.uncaught (PyExc.osError m) ∧
    (module_main p env0 w).dir_on_disk = false := by
  unfold module_main main_inner with_body
  rw [hk]
  simp [hc, hs, dispatch_exc, rmtree_if_on_disk]

/-- Witness for C10_os_error_uncaught: one source file whose copy raises
OSError in the c10World. -/
theorem C10_os_error_uncaught_witness :
    (module_main c10Params [] c10World).outcome =
      Outcome.uncaught (PyExc.osError "missing.txt") ∧
    (module_main c10Params [] c10World).dir_on_disk = false :=
  C10_os_error_uncaught c10Params [] c10World "missing.txt"
    [GitAction.lsRemote "master", GitAction.fetchCmd "master:local",
      GitAction.checkoutCmd "local"]
    rfl (by decide) (by decide)
